import Mathlib

/-!
Verification of the UK Company Ownership Explorer (app.py, calculator_module.py).

The Python source is shallowly embedded below: pure helper functions become
Lean functions on `String`/`List Char`; the Streamlit side effects
(`st.markdown`, `st.warning`, ...) become an explicit event list `Ev`;
HTTP responses become an explicit `HttpResponse` value supplied by a
`Registry` model, so the recursive traversal `display_ownership_tree`
becomes a computable function from a registry model to an event list.
-/

/-! ## Python string primitives -/

/-- Python `str.strip()` restricted to whitespace (drop leading and trailing
whitespace characters). -/
def pyStrip (s : String) : String :=
  ⟨((s.data.dropWhile Char.isWhitespace).reverse.dropWhile Char.isWhitespace).reverse⟩

/-- Python `str.upper()` (ASCII-faithful). -/
def pyUpper (s : String) : String := ⟨s.data.map Char.toUpper⟩

/-- Python `str.lower()` (ASCII-faithful). -/
def pyLower (s : String) : String := ⟨s.data.map Char.toLower⟩

/-- Helper for `pyTitle`: the Boolean argument records whether the previous
character was alphabetic (cased). -/
def pyTitleAux : Bool → List Char → List Char
  | _, [] => []
  | prevAlpha, c :: cs =>
    if c.isAlpha then
      (if prevAlpha then c.toLower else c.toUpper) :: pyTitleAux true cs
    else
      c :: pyTitleAux false cs

/-- Python `str.title()`: the first cased character of each run of cased
characters is uppercased, the rest are lowercased. -/
def pyTitle (s : String) : String := ⟨pyTitleAux false s.data⟩

/-- Does the list start with the given pattern? -/
def listStartsWith : List Char → List Char → Bool
  | _, [] => true
  | [], _ :: _ => false
  | c :: cs, p :: ps => (c == p) && listStartsWith cs ps

/-- Does the needle occur as a contiguous sub-list of the haystack? -/
def listContainsSub (needle : List Char) : List Char → Bool
  | [] => needle.isEmpty
  | c :: rest => listStartsWith (c :: rest) needle || listContainsSub needle rest

/-- Python `needle in hay` on strings: substring containment. -/
def strContains (hay needle : String) : Bool := listContainsSub needle.data hay.data

/-- Python `s.replace("-", " ")`. -/
def dashToSpace (s : String) : String :=
  ⟨s.data.map (fun c => if c = '-' then ' ' else c)⟩

/-- `str(company_number).strip().upper()` — identifier normalisation used by
the traversal (app.py line 255) and the input handler (line 394). -/
def normalizeId (s : String) : String := pyUpper (pyStrip s)

/-- Python truthiness of an optional string field coming from a JSON dict:
a missing key (`None`) and the empty string are falsy. -/
def truthy : Option String → Bool
  | none => false
  | some s => !s.data.isEmpty

/-! ## Data model (JSON shapes consumed by the app) -/

/-- The `identification` sub-dictionary of a corporate PSC record. -/
structure Identification where
  registration_number : Option String
  legal_form : Option String
  legal_authority : Option String
  country_registered : Option String
  place_registered : Option String
deriving DecidableEq

/-- A person-with-significant-control record (one element of the `items`
list of the PSC endpoint response). -/
structure PSC where
  name : Option String
  kind : Option String
  nationality : Option String
  country_of_residence : Option String
  statement : Option String
  natures_of_control : List String
  identification : Option Identification
deriving DecidableEq

/-- A company profile response (`/company/{id}`). -/
structure CompanyProfile where
  company_name : Option String
  company_number : Option String
  company_status : Option String
  date_of_creation : Option String
  sic_codes : List String
  jurisdiction : Option String
deriving DecidableEq

/-- One element of the `items` list of a `/filing-history` response. -/
structure FilingItem where
  description : Option String
  category : Option String
  date : Option String
  transaction_id : Option String
  ftype : Option String
deriving DecidableEq

/-! ## Registry client (`make_api_request`, app.py lines 86-108) -/

/-- The transport-level outcome of one HTTP GET, as seen by
`make_api_request`'s exception handlers. -/
inductive HttpResponse (α : Type) where
  | ok (body : α)
  | httpError (status : Nat) (text : String)
  | requestError (msg : String)
  | decodeError (msg : String)
deriving DecidableEq

/-- The `st.warning` / `st.error` message emitted by `make_api_request`;
`ref` is `company_number_for_error or url`. -/
inductive ApiMsg where
  | warning404 (ref : String)
  | error401 (ref : String)
  | error429 (ref : String)
  | errorHttp (ref : String) (status : Nat) (text : String)
  | errorRequest (ref : String) (msg : String)
  | errorJson (ref : String) (msg : String)
deriving DecidableEq

/-- `make_api_request` (app.py lines 86-108): on success returns the decoded
body; every handled failure displays one message and returns `None`. -/
def make_api_request {α : Type} (response : HttpResponse α) (ref : String) :
    Option α × List ApiMsg :=
  match response with
  | .ok body => (some body, [])
  | .httpError 404 _ => (none, [.warning404 ref])
  | .httpError 401 _ => (none, [.error401 ref])
  | .httpError 429 _ => (none, [.error429 ref])
  | .httpError status text => (none, [.errorHttp ref status text])
  | .requestError msg => (none, [.errorRequest ref msg])
  | .decodeError msg => (none, [.errorJson ref msg])

/-- The registry model: what the upstream API answers for each endpoint.
For the PSC and filing-history endpoints the decoded body is
`Option (List _)`: `some items` when the dict has an `items` key,
`none` when it does not (or is empty, hence falsy). -/
structure Registry where
  profile : String → HttpResponse CompanyProfile
  pscs : String → HttpResponse (Option (List PSC))
  filingHistory : String → HttpResponse (Option (List FilingItem))

/-! ## Kind classification and jurisdiction heuristic -/

/-- `psc.get("kind", d).replace("-", " ").title()` — the title-cased kind
label the code classifies on. -/
def titleKind (kind : String) : String := pyTitle (dashToSpace kind)

/-- The individual-vs-corporate substring heuristic applied to a title-cased
kind label (app.py lines 189 and 205; Python `or` binds looser than `and`). -/
def isIndividualKindLabel (label : String) : Bool :=
  strContains label "Individual" ||
    (strContains label "Person With Significant Control" &&
      !strContains label "Corporate" && !strContains label "Legal")

/-- Classification of a raw kind string as an individual, via its
title-cased label. -/
def isIndividualKind (kind : String) : Bool :=
  isIndividualKindLabel (titleKind kind)

/-- The fixed UK keyword set of the jurisdiction heuristic (app.py line 357). -/
def uk_keywords : List String :=
  ["united kingdom", "england", "wales", "scotland", "northern ireland",
   "companies house", "great britain"]

/-- `any(keyword in field.lower() for keyword in uk_keywords)`. -/
def lowerContainsAny (field : String) (keywords : List String) : Bool :=
  keywords.any (fun kw => strContains (pyLower field) kw)

/-- The `is_uk_like` decision chain of app.py lines 356-360. -/
def isUkLike (country_reg place_reg : Option String) : Bool :=
  if truthy country_reg && lowerContainsAny (country_reg.getD "") uk_keywords then
    true
  else if truthy place_reg && lowerContainsAny (place_reg.getD "") uk_keywords then
    true
  else if !truthy country_reg && !truthy place_reg then
    true
  else
    false

/-- The Jurisdiction Classifier on an identification record: the
registration-number guard of line 355 combined with `is_uk_like`
(lines 356-361), with the kind test factored out. -/
def isRecursable (ident : Identification) : Bool :=
  truthy ident.registration_number &&
    isUkLike ident.country_registered ident.place_registered

/-- The recursability policy as the specification words it, in order:
no registration number — not recursable; a keyword match inside the
country-registered or place-registered field — recursable; neither field
present — recursable; otherwise not recursable. Stated for comparison
against `isRecursable`, which is read off the code. -/
def recursablePolicySpec (ident : Identification) : Bool :=
  if !truthy ident.registration_number then false
  else if (match ident.country_registered with
           | some s => lowerContainsAny s uk_keywords
           | none => false) ||
          (match ident.place_registered with
           | some s => lowerContainsAny s uk_keywords
           | none => false) then true
  else if !truthy ident.country_registered && !truthy ident.place_registered then
    true
  else false

/-- The per-PSC recursion decision of app.py lines 336-361: the company
number the traversal descends into, when any. -/
def pscRecurseTarget (psc : PSC) : Option String :=
  match psc.identification with
  | none => none
  | some ident =>
    let psc_kind := titleKind (psc.kind.getD "N/A")
    if truthy ident.registration_number &&
        (psc_kind == "Corporate Entity Person With Significant Control" ||
         psc_kind == "Legal Person Person With Significant Control") then
      if isUkLike ident.country_registered ident.place_registered then
        some (normalizeId (ident.registration_number.getD ""))
      else none
    else none

/-! ## Filing Relevance Filter (`get_formatted_relevant_filing_history`,
app.py lines 111-167) -/

/-- `relevant_categories` (app.py line 118). -/
def relevant_categories : List String := ["capital", "resolution", "incorporation"]

/-- `relevant_description_keywords` (app.py lines 119-124). -/
def relevant_description_keywords : List String :=
  ["statement of capital", "sh01", "cs01", "allotment", "shares allotted",
   "return of allotment", "capital", "increase in share capital",
   "reduction of share capital", "resolution relating to share capital",
   "change of share class", "re-denomination of share capital"]

/-- The per-item relevance test of the loop body (app.py lines 127-139). -/
def filingIsRelevant (item : FilingItem) : Bool :=
  let description := pyLower (item.description.getD "")
  let category := pyLower (item.category.getD "")
  relevant_categories.contains category ||
    relevant_description_keywords.any (fun kw => strContains description kw)

/-- The markdown line built for one relevant filing (app.py lines 152-158). -/
def formatFiling (company_number : String) (item : FilingItem) : String :=
  let date := item.date.getD "N/A"
  let transaction_id := item.transaction_id.getD ""
  let ch_link :=
    if transaction_id.data.isEmpty then "#"
    else
      "https://find-and-update.company-information.service.gov.uk/company/" ++
        company_number ++ "/filing-history/" ++ transaction_id ++
        "/document?format=pdf&download=0"
  let display_description : String :=
    ⟨(item.description.getD "N/A").data.map
      (fun c => if c = Char.ofNat 96 then Char.ofNat 39 else c)⟩
  "* **" ++ date ++ "**: [" ++ display_description ++ "](" ++ ch_link ++
    ") (Type: " ++ item.ftype.getD "N/A" ++ ")"

/-- The markdown produced from a decoded filing-history response
(app.py lines 115-167): every relevant item, in response order, or a
fallback line. -/
def relevantFilingsMd (company_number : String)
    (filing_data : Option (Option (List FilingItem))) : List String :=
  match filing_data with
  | some (some items) =>
    let found_filings := (items.filter filingIsRelevant).map (formatFiling company_number)
    if found_filings.isEmpty then
      ["* No specific capital-related filings identified in the recent history. Manual review of filing history is recommended."]
    else found_filings
  | _ => ["* Could not retrieve filing history for the target company."]

/-- `get_formatted_relevant_filing_history` (app.py lines 111-167): performs
the fetch and returns the markdown lines; the second component records the
fetch and any client messages. -/
def get_formatted_relevant_filing_history (reg : Registry) (company_number : String) :
    List String × List ApiMsg :=
  let (filing_data, msgs) := make_api_request (reg.filingHistory company_number) company_number
  (relevantFilingsMd company_number filing_data, msgs)

/-! ## Traversal events -/

/-- One observable step of the traversal: a fetch performed against the
registry, or a rendered output. Consecutive unconditional markdown lines
describing the same record are collapsed into one event. -/
inductive Ev where
  | maxDepth (depth : Nat)
  | cycleMsg (depth : Nat) (id : String)
  | fetchProfile (id : String)
  | fetchPSCs (id : String)
  | fetchFiling (id : String)
  | apiMsg (m : ApiMsg)
  | profileFail (depth : Nat) (id : String)
  | summaryBox
  | detailedHeader
  | nodeHeader (depth : Nat) (id : String) (name : String)
  | nodeDetails (depth : Nat) (id : String)
  | pscHeader (depth : Nat)
  | noPscListed (depth : Nat)
  | controllerEntry (depth : Nat) (name : String) (kind : String)
  | recurseNote (depth : Nat) (name : String) (id : String)
  | pscFetchFail (depth : Nat) (id : String)
  | pscBadFormat (depth : Nat)
  | separator (depth : Nat)
deriving DecidableEq

/-! ## Summary generator (`generate_markdown_summary_and_guide`,
app.py lines 170-247) — modelled for its fetches; the markdown text it
interpolates is abstracted into `Ev.summaryBox`. -/

/-- The key-individuals loop (app.py lines 187-210): for each top-level PSC
classified corporate, one further PSC fetch when a registration number is
available. -/
def summaryPscEvents (reg : Registry) : List PSC → List Ev
  | [] => []
  | psc :: rest =>
    let psc_kind := titleKind (psc.kind.getD "")
    (if isIndividualKindLabel psc_kind then []
     else if strContains psc_kind "Corporate Entity" ||
             strContains psc_kind "Legal Person" then
       let corp_psc_number :=
         match psc.identification with
         | none => "N/A"
         | some ident => ident.registration_number.getD "N/A"
       if corp_psc_number ≠ "N/A" then
         let (_, msgs) := make_api_request (reg.pscs corp_psc_number) corp_psc_number
         Ev.fetchPSCs corp_psc_number :: msgs.map Ev.apiMsg
       else []
     else []) ++ summaryPscEvents reg rest

/-- The fetch trace of `generate_markdown_summary_and_guide` when called from
the traversal's initial step (profile present): the key-individuals
sub-fetches, then the filing-history fetch keyed by the profile's own
company number (app.py lines 175 and 221). -/
def summaryEvents (reg : Registry) (profile : CompanyProfile)
    (pscsTop : Option (Option (List PSC))) : List Ev :=
  (match pscsTop with
   | some (some items) => summaryPscEvents reg items
   | _ => []) ++
  (let cn := profile.company_number.getD "N/A"
   let (_, msgs) := get_formatted_relevant_filing_history reg cn
   Ev.fetchFiling cn :: msgs.map Ev.apiMsg)

/-! ## Traversal Engine (`display_ownership_tree`, app.py lines 250-373) -/

/-- The maximum analysis depth (app.py line 82). -/
def MAX_DEPTH : Nat := 4

/-- The two early-return guards of `display_ownership_tree`
(app.py lines 251-259): the depth bound, then the per-branch visited check
— which is skipped on the initial call. -/
def traverseGuard (company_number : String) (current_depth : Nat)
    (visited_companies : List String) (initial_call : Bool) : Option (List Ev) :=
  if current_depth > MAX_DEPTH then
    some [Ev.maxDepth current_depth]
  else if visited_companies.contains (normalizeId company_number) && !initial_call then
    some [Ev.cycleMsg current_depth (normalizeId company_number)]
  else
    none

/-- The per-controller loop of app.py lines 312-365: one entry per PSC, in
response order; `recur` performs the recursive descent for a recursable
corporate controller. -/
def goPscs (recur : String → List Ev) (current_depth : Nat) : List PSC → List Ev
  | [] => []
  | psc :: rest =>
    let psc_name := psc.name.getD "N/A"
    let psc_kind := titleKind (psc.kind.getD "N/A")
    Ev.controllerEntry current_depth psc_name psc_kind ::
      ((match pscRecurseTarget psc with
        | some tgt => Ev.recurseNote current_depth psc_name tgt :: recur tgt
        | none => []) ++
       goPscs recur current_depth rest)

/-- The PSC section of the tree view (app.py lines 307-370): header, then
the items (or the empty-items message), or the two failure messages. -/
def pscSection (recur : String → List Ev) (normalised : String)
    (current_depth : Nat) (pscs_data : Option (Option (List PSC))) : List Ev :=
  Ev.pscHeader current_depth ::
    (match pscs_data with
     | some (some items) =>
       (if items.isEmpty then [Ev.noPscListed current_depth] else []) ++
         goPscs recur current_depth items
     | none => [Ev.pscFetchFail current_depth normalised]
     | some none => [Ev.pscBadFormat current_depth])

/-- The body of `display_ownership_tree` past the two guards
(app.py lines 261-373), with the visited set already extended by the
current identifier and the recursive call abstracted as `recur`. -/
def traverseBody (reg : Registry) (recur : String → List Ev)
    (normalised : String) (current_depth : Nat) (initial_call : Bool) : List Ev :=
  let (profile_data, pmsgs) := make_api_request (reg.profile normalised) normalised
  Ev.fetchProfile normalised ::
    (pmsgs.map Ev.apiMsg ++
      match profile_data with
      | none => [Ev.profileFail current_depth normalised]
      | some profile =>
        let topPscs : Option (Option (Option (List PSC)) × List ApiMsg) :=
          if initial_call then
            some (make_api_request (reg.pscs normalised) normalised)
          else none
        let initEvs : List Ev :=
          match topPscs with
          | some (dat, msgs) =>
            Ev.fetchPSCs normalised ::
              (msgs.map Ev.apiMsg ++ summaryEvents reg profile dat ++
                [Ev.summaryBox, Ev.detailedHeader])
          | none => []
        let headerEvs : List Ev :=
          (if !initial_call || current_depth > 0 then
            [Ev.nodeHeader current_depth normalised (profile.company_name.getD "N/A")]
           else []) ++
          (if !initial_call then [Ev.nodeDetails current_depth normalised] else [])
        let currentLevel : Option (Option (List PSC)) × List Ev :=
          match topPscs with
          | some (dat, _) => (dat, [])
          | none =>
            let (dat, msgs) := make_api_request (reg.pscs normalised) normalised
            (dat, Ev.fetchPSCs normalised :: msgs.map Ev.apiMsg)
        initEvs ++ headerEvs ++ currentLevel.2 ++
          pscSection recur normalised current_depth currentLevel.1 ++
          [Ev.separator current_depth])

/-- Fuel-indexed unfolding of `display_ownership_tree`: structural recursion
on `fuel`, with the two guards checked first in both cases. The wrapper
`display_ownership_tree` below supplies enough fuel that the zero case is
unreachable past the guards. -/
def traverseF : Nat → Registry → String → Nat → List String → Bool → List Ev
  | 0, _, company_number, current_depth, visited_companies, initial_call =>
    (traverseGuard company_number current_depth visited_companies initial_call).getD []
  | fuel + 1, reg, company_number, current_depth, visited_companies, initial_call =>
    match traverseGuard company_number current_depth visited_companies initial_call with
    | some evs => evs
    | none =>
      let normalised := normalizeId company_number
      let visited' := normalised :: visited_companies
      traverseBody reg
        (fun tgt => traverseF fuel reg tgt (current_depth + 1) visited' false)
        normalised current_depth initial_call

/-- `display_ownership_tree(company_number, current_depth, visited_companies,
initial_call)` (app.py lines 250-373) as an event trace. The fuel
`MAX_DEPTH + 1 - current_depth` is exhausted exactly when the depth guard
fires, so the recursion is total and matches the source's depth-bounded
recursion. -/
def display_ownership_tree (reg : Registry) (company_number : String)
    (current_depth : Nat) (visited_companies : List String)
    (initial_call : Bool) : List Ev :=
  traverseF (MAX_DEPTH + 1 - current_depth) reg company_number current_depth
    visited_companies initial_call

/-! ## Shareholding calculator (`display_shareholding_calculator`,
calculator_module.py lines 40-69) -/

/-- The outcome of pressing the Calculate Percentage button. -/
inductive CalcResult where
  | warnExceeds
  | success (entity : String) (shareClass : String) (percentage : ℚ)
  | errTotalNonPositive
  | errInvalidNumbers
deriving DecidableEq

/-- The branch taken by the Calculate Percentage handler
(calculator_module.py lines 55-69) for the supplied inputs. -/
def display_shareholding_calculator (selected_psc_name manual_psc_name
    calc_share_class : String) (calc_total_shares calc_shares_held : Int) :
    CalcResult :=
  if calc_total_shares > 0 ∧ calc_shares_held ≥ 0 then
    if calc_shares_held > calc_total_shares then
      CalcResult.warnExceeds
    else
      let percentage : ℚ := ((calc_shares_held : ℚ) / (calc_total_shares : ℚ)) * 100
      let entity0 :=
        if selected_psc_name = "Other (Manual Entry)" ∧ !manual_psc_name.data.isEmpty
        then manual_psc_name else selected_psc_name
      let entity :=
        if entity0.data.isEmpty ∨ entity0 = "Other (Manual Entry)"
        then "The specified entity" else entity0
      CalcResult.success entity
        (if calc_share_class.data.isEmpty then "specified" else calc_share_class)
        percentage
  else if calc_total_shares ≤ 0 then CalcResult.errTotalNonPositive
  else CalcResult.errInvalidNumbers

/-! ## Identifier input validation (app.py lines 392-401) -/

/-- Python `s.isalpha()` on a character list: non-empty and all alphabetic. -/
def pyIsAlpha (l : List Char) : Bool := !l.isEmpty && l.all Char.isAlpha

/-- Python `s.isdigit()` on a character list: non-empty and all digits. -/
def pyIsDigit (l : List Char) : Bool := !l.isEmpty && l.all Char.isDigit

/-- The format test of app.py line 395 on the cleaned identifier:
`len == 8 or (len > 1 and s[:2].isalpha() and s[2:].isdigit())`. -/
def validCompanyNumberFormat (cleaned : String) : Bool :=
  cleaned.data.length == 8 ||
    (cleaned.data.length > 1 && pyIsAlpha (cleaned.data.take 2) &&
      pyIsDigit (cleaned.data.drop 2))

/-- The Get Ownership Details button handler (app.py lines 392-401): the
traversal is invoked exactly when the raw input is non-empty and the
cleaned (stripped, uppercased) identifier passes the format test. -/
def traversal_invoked (company_number_input : String) : Bool :=
  !company_number_input.data.isEmpty &&
    validCompanyNumberFormat (normalizeId company_number_input)

/-- The acceptance condition exactly as the specification words it: after
trimming and uppercasing, the identifier is exactly 8 characters long, or
begins with 2 alphabetic characters followed by 6 digits. Stated for
comparison against `traversal_invoked`, which is read off the code. -/
def claimedAcceptance (company_number_input : String) : Bool :=
  !company_number_input.data.isEmpty &&
    (let c := (normalizeId company_number_input).data
     c.length == 8 ||
       (decide (8 ≤ c.length) && pyIsAlpha (c.take 2) &&
         pyIsDigit ((c.drop 2).take 6)))

/-! ## Synthetic registries for the testable properties -/

/-- A UK-registered identification record. -/
def ukIdent (reg : String) : Identification :=
  { registration_number := some reg, legal_form := some "ltd",
    legal_authority := none, country_registered := some "United Kingdom",
    place_registered := none }

/-- A corporate-entity PSC controlled by the company with number `reg`. -/
def corpPSC (nm reg : String) : PSC :=
  { name := some nm, kind := some "corporate-entity-person-with-significant-control",
    nationality := none, country_of_residence := none, statement := none,
    natures_of_control := ["ownership-of-shares-75-to-100-percent"],
    identification := some (ukIdent reg) }

/-- A minimal active company profile. -/
def mkProfile (id nm : String) : CompanyProfile :=
  { company_name := some nm, company_number := some id,
    company_status := some "active", date_of_creation := some "2000-01-01",
    sic_codes := [], jurisdiction := some "england-wales" }

/-- Two-company cycle: A's controller is B and B's controller is A. -/
def regAB : Registry :=
  { profile := fun id =>
      if id = "A" then .ok (mkProfile "A" "Alpha Ltd")
      else if id = "B" then .ok (mkProfile "B" "Beta Ltd")
      else .httpError 404 ""
  , pscs := fun id =>
      if id = "A" then .ok (some [corpPSC "Beta Ltd" "B"])
      else if id = "B" then .ok (some [corpPSC "Alpha Ltd" "A"])
      else .httpError 404 ""
  , filingHistory := fun _ => .httpError 404 "" }

/-- Sibling diamond: A is controlled by B and C, each of which is
controlled by D; D has an empty controller list. -/
def regSib : Registry :=
  { profile := fun id =>
      if id = "A" then .ok (mkProfile "A" "Alpha Ltd")
      else if id = "B" then .ok (mkProfile "B" "Beta Ltd")
      else if id = "C" then .ok (mkProfile "C" "Gamma Ltd")
      else if id = "D" then .ok (mkProfile "D" "Delta Ltd")
      else .httpError 404 ""
  , pscs := fun id =>
      if id = "A" then .ok (some [corpPSC "Beta Ltd" "B", corpPSC "Gamma Ltd" "C"])
      else if id = "B" then .ok (some [corpPSC "Delta Ltd" "D"])
      else if id = "C" then .ok (some [corpPSC "Delta Ltd" "D"])
      else if id = "D" then .ok (some [])
      else .httpError 404 "" 
  , filingHistory := fun _ => .httpError 404 "" }

/-- Successor along the synthetic ownership chain H0 → H1 → ⋯ → H7
(length `MAX_DEPTH + 3`). -/
def chainNext : String → Option String
  | "H0" => some "H1" | "H1" => some "H2" | "H2" => some "H3"
  | "H3" => some "H4" | "H4" => some "H5" | "H5" => some "H6"
  | "H6" => some "H7" | _ => none

/-- The identifiers of the synthetic chain. -/
def chainIds : List String := ["H0", "H1", "H2", "H3", "H4", "H5", "H6", "H7"]

/-- Registry holding the synthetic chain. -/
def chainReg : Registry :=
  { profile := fun id =>
      if chainIds.contains id then .ok (mkProfile id (id ++ " Ltd"))
      else .httpError 404 ""
  , pscs := fun id =>
      match chainNext id with
      | some nxt => .ok (some [corpPSC (nxt ++ " Ltd") nxt])
      | none => .ok (some [])
  , filingHistory := fun _ => .httpError 404 "" }

/-- Registry where B's profile request is answered 401 Unauthorized while
sibling C resolves normally. -/
def reg401 : Registry :=
  { profile := fun id =>
      if id = "A" then .ok (mkProfile "A" "Alpha Ltd")
      else if id = "B" then .httpError 401 ""
      else if id = "C" then .ok (mkProfile "C" "Gamma Ltd")
      else .httpError 404 ""
  , pscs := fun id =>
      if id = "A" then .ok (some [corpPSC "Beta Ltd" "B", corpPSC "Gamma Ltd" "C"])
      else if id = "C" then .ok (some [])
      else .httpError 404 ""
  , filingHistory := fun _ => .httpError 404 "" }

/-- A capital-category filing item. -/
def capitalFiling (n : Nat) : FilingItem :=
  { description := some ("Statement of capital " ++ toString n),
    category := some "capital", date := some "2024-01-01",
    transaction_id := some ("t" ++ toString n), ftype := some "SH01" }

/-- Sixteen relevant filings — more than the count the specification says
the filter is capped at. -/
def sixteenFilings : List FilingItem := (List.range 16).map capitalFiling

/-- Registry whose filing history for X holds sixteen relevant filings. -/
def regFilings : Registry :=
  { profile := fun _ => .httpError 404 ""
  , pscs := fun _ => .httpError 404 ""
  , filingHistory := fun id =>
      if id = "X" then .ok (some sixteenFilings) else .httpError 404 "" }

/-! ## Event counters -/

/-- Number of cycle/repeat-detected messages in a trace. -/
def countCycles (l : List Ev) : Nat :=
  (l.filter (fun e => match e with | .cycleMsg _ _ => true | _ => false)).length

/-- Number of max-depth messages in a trace. -/
def countMaxDepth (l : List Ev) : Nat :=
  (l.filter (fun e => match e with | .maxDepth _ => true | _ => false)).length

/-- Number of node headers rendered for a given company number. -/
def countHeadersOf (id : String) (l : List Ev) : Nat :=
  (l.filter (fun e => match e with | .nodeHeader _ i _ => i == id | _ => false)).length

/-- Every event that is rendered at the current traversal depth stays within
`MAX_DEPTH`; only the max-depth terminal message itself may carry a larger
depth. -/
def depthWithinBound : Ev → Bool
  | .maxDepth _ => true
  | .cycleMsg d _ => decide (d ≤ MAX_DEPTH)
  | .profileFail d _ => decide (d ≤ MAX_DEPTH)
  | .nodeHeader d _ _ => decide (d ≤ MAX_DEPTH)
  | .nodeDetails d _ => decide (d ≤ MAX_DEPTH)
  | .pscHeader d => decide (d ≤ MAX_DEPTH)
  | .noPscListed d => decide (d ≤ MAX_DEPTH)
  | .controllerEntry d _ _ => decide (d ≤ MAX_DEPTH)
  | .recurseNote d _ _ => decide (d ≤ MAX_DEPTH)
  | .pscFetchFail d _ => decide (d ≤ MAX_DEPTH)
  | .pscBadFormat d => decide (d ≤ MAX_DEPTH)
  | .separator d => decide (d ≤ MAX_DEPTH)
  | _ => true

/-! ## General lemmas about the traversal -/

/-- Client messages rendered as events carry no depth, so they always satisfy
the depth bound. -/
theorem apiMsgs_bound (msgs : List ApiMsg) :
    (msgs.map Ev.apiMsg).all depthWithinBound = true := by
  induction msgs with
  | nil => rfl
  | cons m rest ih => simp [depthWithinBound, ih]

/-- The summary generator's key-individuals loop emits only fetches and
client messages, all within the depth bound. -/
theorem summaryPscEvents_bound (reg : Registry) (l : List PSC) :
    (summaryPscEvents reg l).all depthWithinBound = true := by
  induction l with
  | nil => rfl
  | cons psc rest ih =>
    simp only [summaryPscEvents, List.all_append, ih, Bool.and_true]
    split
    · rfl
    · split
      · split
        · simp [depthWithinBound, apiMsgs_bound]
        · rfl
      · rfl

/-- All summary-generator events satisfy the depth bound. -/
theorem summaryEvents_bound (reg : Registry) (profile : CompanyProfile)
    (pscsTop : Option (Option (List PSC))) :
    (summaryEvents reg profile pscsTop).all depthWithinBound = true := by
  simp only [summaryEvents, List.all_append, Bool.and_eq_true]
  refine ⟨?_, by simp [depthWithinBound, apiMsgs_bound]⟩
  match pscsTop with
  | some (some items) => exact summaryPscEvents_bound reg items
  | some none => rfl
  | none => rfl

/-- The controller loop keeps the depth bound whenever the current depth is
within it and every recursive descent does. -/
theorem goPscs_bound (recur : String → List Ev) (d : Nat) (l : List PSC)
    (hd : d ≤ MAX_DEPTH)
    (hrec : ∀ t, (recur t).all depthWithinBound = true) :
    (goPscs recur d l).all depthWithinBound = true := by
  induction l with
  | nil => rfl
  | cons psc rest ih =>
    simp only [goPscs, List.all_cons, List.all_append, ih, Bool.and_true,
      Bool.and_eq_true]
    refine ⟨by simp [depthWithinBound, hd], ?_⟩
    match h : pscRecurseTarget psc with
    | some tgt => simp [depthWithinBound, hd, hrec tgt]
    | none => rfl

/-- The PSC section keeps the depth bound under the same assumptions. -/
theorem pscSection_bound (recur : String → List Ev) (n : String) (d : Nat)
    (dat : Option (Option (List PSC))) (hd : d ≤ MAX_DEPTH)
    (hrec : ∀ t, (recur t).all depthWithinBound = true) :
    (pscSection recur n d dat).all depthWithinBound = true := by
  simp only [pscSection, List.all_cons, Bool.and_eq_true]
  refine ⟨by simp [depthWithinBound, hd], ?_⟩
  match dat with
  | some (some items) =>
    simp only [List.all_append, goPscs_bound recur d items hd hrec, Bool.and_true]
    split <;> simp [depthWithinBound, hd]
  | none => simp [depthWithinBound, hd]
  | some none => simp [depthWithinBound, hd]

/-- The whole per-node body keeps the depth bound when the node is processed
within the bound. -/
theorem traverseBody_bound (reg : Registry) (recur : String → List Ev)
    (n : String) (d : Nat) (i : Bool) (hd : d ≤ MAX_DEPTH)
    (hrec : ∀ t, (recur t).all depthWithinBound = true) :
    (traverseBody reg recur n d i).all depthWithinBound = true := by
  simp only [traverseBody, List.all_cons, List.all_append, Bool.and_eq_true]
  refine ⟨rfl, ?_⟩
  match (make_api_request (reg.profile n) n).1 with
  | none => simp [depthWithinBound, apiMsgs_bound, hd]
  | some profile =>
    simp only [List.all_append, Bool.and_eq_true, apiMsgs_bound, true_and]
    cases i with
    | true =>
      refine ⟨⟨⟨⟨?_, ?_, ?_⟩, ?_⟩, ?_⟩, ?_⟩
      · simp [depthWithinBound, apiMsgs_bound, summaryEvents_bound]
      · split <;> simp [depthWithinBound, hd]
      · split <;> simp [depthWithinBound, hd]
      · simp
      · exact pscSection_bound recur n d _ hd hrec
      · simp [depthWithinBound, hd]
    | false =>
      refine ⟨⟨⟨⟨?_, ?_, ?_⟩, ?_⟩, ?_⟩, ?_⟩
      · simp
      · split <;> simp [depthWithinBound, hd]
      · split <;> simp [depthWithinBound, hd]
      · simp [depthWithinBound, apiMsgs_bound]
      · exact pscSection_bound recur n d _ hd hrec
      · simp [depthWithinBound, hd]

/-- When neither guard fires, the current depth is within the bound. -/
theorem traverseGuard_none_le (cn : String) (d : Nat) (v : List String) (i : Bool)
    (h : traverseGuard cn d v i = none) : d ≤ MAX_DEPTH := by
  by_contra hgt
  simp [traverseGuard, Nat.lt_of_not_le hgt] at h

/-- Depth-bound invariant of the fuel-indexed traversal: every event that is
rendered at the current traversal depth has depth at most `MAX_DEPTH`. -/
theorem traverseF_bound (fuel : Nat) : ∀ (reg : Registry) (cn : String) (d : Nat)
    (v : List String) (i : Bool),
    (traverseF fuel reg cn d v i).all depthWithinBound = true := by
  induction fuel with
  | zero =>
    intro reg cn d v i
    simp only [traverseF]
    match h : traverseGuard cn d v i with
    | none => rfl
    | some evs =>
      simp only [Option.getD_some]
      simp only [traverseGuard] at h
      split at h
      · cases h; rfl
      · split at h
        · cases h
          have hd : d ≤ MAX_DEPTH := by omega
          simp [depthWithinBound, hd]
        · cases h
  | succ fuel ih =>
    intro reg cn d v i
    simp only [traverseF]
    match h : traverseGuard cn d v i with
    | none =>
      have hd : d ≤ MAX_DEPTH := traverseGuard_none_le cn d v i h
      exact traverseBody_bound reg _ _ d i hd (fun t => ih reg t (d + 1) _ false)
    | some evs =>
      simp only [traverseGuard] at h
      split at h
      · cases h; rfl
      · split at h
        · cases h
          have hd : d ≤ MAX_DEPTH := by omega
          simp [depthWithinBound, hd]
        · cases h

/-- A branch call whose normalized identifier is already visited produces
exactly the cycle message, fetching nothing. -/
theorem traverse_cycle_of_visited (reg : Registry) (id : String) (d : Nat)
    (v : List String) (h1 : d ≤ MAX_DEPTH)
    (h2 : v.contains (normalizeId id) = true) :
    display_ownership_tree reg id d v false = [Ev.cycleMsg d (normalizeId id)] := by
  have hm : normalizeId id ∈ v := by simpa using h2
  have hguard : traverseGuard id d v false = some [Ev.cycleMsg d (normalizeId id)] := by
    simp [traverseGuard, Nat.not_lt.mpr h1, hm]
  cases hfuel : MAX_DEPTH + 1 - d with
  | zero => exact absurd hfuel (by omega)
  | succ n =>
    simp [display_ownership_tree, hfuel, traverseF, hguard]

/-- A call beyond the depth bound produces exactly the max-depth message. -/
theorem traverse_maxdepth (reg : Registry) (id : String) (d : Nat)
    (v : List String) (i : Bool) (h : MAX_DEPTH < d) :
    display_ownership_tree reg id d v i = [Ev.maxDepth d] := by
  have hfuel : MAX_DEPTH + 1 - d = 0 := by omega
  simp [display_ownership_tree, hfuel, traverseF, traverseGuard, h]

/-- A node whose profile request is answered 404 renders exactly the fetch,
the warning and the terminal profile-unavailable line. -/
theorem traverse_profile_404 (reg : Registry) (id : String) (d : Nat)
    (v : List String) (i : Bool) (h1 : d ≤ MAX_DEPTH)
    (h2 : (v.contains (normalizeId id) && !i) = false)
    (h3 : reg.profile (normalizeId id) = .httpError 404 "") :
    display_ownership_tree reg id d v i =
      [Ev.fetchProfile (normalizeId id),
       Ev.apiMsg (ApiMsg.warning404 (normalizeId id)),
       Ev.profileFail d (normalizeId id)] := by
  have hguard : traverseGuard id d v i = none := by
    simp only [traverseGuard, if_neg (Nat.not_lt.mpr h1), h2]
    simp
  cases hfuel : MAX_DEPTH + 1 - d with
  | zero => exact absurd hfuel (by omega)
  | succ n =>
    simp [display_ownership_tree, hfuel, traverseF, hguard, traverseBody, h3,
      make_api_request]

/-! ## Lemmas about the classifiers and the input validation -/

/-- No UK keyword occurs in the empty string. -/
theorem lowerContainsAny_of_empty (s : String) (h : s.data = []) :
    lowerContainsAny s uk_keywords = false := by
  simp only [lowerContainsAny, pyLower, strContains, h]
  decide

/-- A falsy field (absent or empty) cannot match a UK keyword. -/
theorem optMatch_false_of_truthy_false (o : Option String)
    (h : truthy o = false) :
    (match o with
     | some s => lowerContainsAny s uk_keywords
     | none => false) = false := by
  match o with
  | none => rfl
  | some s =>
    simp only [truthy, Bool.not_eq_false'] at h
    exact lowerContainsAny_of_empty s (by simpa using h)

/-- The code's guarded keyword test agrees with the specification's
presence-based keyword test. -/
theorem uk_cond_eq (o : Option String) :
    (truthy o && lowerContainsAny (o.getD "") uk_keywords) =
      (match o with
       | some s => lowerContainsAny s uk_keywords
       | none => false) := by
  match o with
  | none => rfl
  | some s =>
    simp only [Option.getD_some]
    cases ht : truthy (some s) with
    | true => simp [ht]
    | false =>
      simp only [ht, Bool.false_and]
      exact (optMatch_false_of_truthy_false (some s) ht).symm

/-- The jurisdiction classifier read off the code agrees with the ordered
policy the specification states. -/
theorem jurisdiction_equiv (ident : Identification) :
    isRecursable ident = recursablePolicySpec ident := by
  obtain ⟨r, lf, la, c, p⟩ := ident
  simp only [isRecursable, recursablePolicySpec, isUkLike]
  cases hr : truthy r with
  | false => simp [hr]
  | true =>
    simp only [Bool.true_and, Bool.not_true, Bool.false_eq_true, if_false]
    rw [uk_cond_eq c, uk_cond_eq p]
    cases hc : (match c with
                | some s => lowerContainsAny s uk_keywords
                | none => false) with
    | true => simp [hc]
    | false =>
      cases hp : (match p with
                  | some s => lowerContainsAny s uk_keywords
                  | none => false) with
      | true => simp [hp]
      | false => simp [hc, hp]

/-- The button handler's format test, rewritten without the redundant
`len > 1` conjunct: exactly 8 characters, or at least 3 characters with the
first two alphabetic and the whole remainder digits. -/
theorem valid_format_eq (c : String) :
    validCompanyNumberFormat c =
      (c.data.length == 8 ||
        (decide (3 ≤ c.data.length) && (c.data.take 2).all Char.isAlpha &&
          (c.data.drop 2).all Char.isDigit)) := by
  obtain ⟨l⟩ := c
  match l with
  | [] => rfl
  | [a] => simp [validCompanyNumberFormat, pyIsAlpha, pyIsDigit]
  | a :: b :: rest =>
    cases rest with
    | nil => simp [validCompanyNumberFormat, pyIsAlpha, pyIsDigit]
    | cons r rs =>
      simp only [validCompanyNumberFormat, pyIsAlpha, pyIsDigit]
      simp [Nat.lt_iff_add_one_le, Bool.and_assoc]

/-! ## Claim theorems -/

/-- Claim C1: on every traversal branch (a recursive, non-initial call) whose
normalized identifier is already in that branch's visited set, the traversal
emits exactly the cycle/repeat-detected terminal message and returns without
fetching anything; and on the synthetic two-company cycle A ↔ B the traversal
from A terminates with a single cycle-detected leaf at depth 2 and no
max-depth event. -/
theorem claim1_cycle_detection :
    (∀ (reg : Registry) (id : String) (d : Nat) (v : List String),
      d ≤ MAX_DEPTH → v.contains (normalizeId id) = true →
      display_ownership_tree reg id d v false = [Ev.cycleMsg d (normalizeId id)]) ∧
    countCycles (display_ownership_tree regAB "A" 0 [] true) = 1 ∧
    (display_ownership_tree regAB "A" 0 [] true).contains (Ev.cycleMsg 2 "A") = true ∧
    countMaxDepth (display_ownership_tree regAB "A" 0 [] true) = 0 :=
  ⟨traverse_cycle_of_visited, by decide, by decide, by decide⟩

/-- Witness for C1: the general branch statement applied at a concrete
visited identifier. -/
theorem claim1_cycle_detection_witness :
    1 ≤ MAX_DEPTH ∧ (["A"] : List String).contains (normalizeId "A") = true ∧
    display_ownership_tree regAB "A" 1 ["A"] false =
      [Ev.cycleMsg 1 (normalizeId "A")] :=
  ⟨by decide, by decide,
    claim1_cycle_detection.1 regAB "A" 1 ["A"] (by decide) (by decide)⟩

/-- Claim C2: every traversal call at depth exceeding `MAX_DEPTH` emits
exactly the max-depth terminal message (so it fetches nothing and renders no
node data); every rendered event of any traversal stays within the depth
bound; and on the synthetic chain H0 → ⋯ → H7 (length `MAX_DEPTH + 3`)
exactly one max-depth event is emitted, at the boundary depth
`MAX_DEPTH + 1`, and the company behind the boundary is never fetched. -/
theorem claim2_max_depth_guard :
    (∀ (reg : Registry) (id : String) (d : Nat) (v : List String) (i : Bool),
      MAX_DEPTH < d → display_ownership_tree reg id d v i = [Ev.maxDepth d]) ∧
    (∀ (reg : Registry) (id : String) (d : Nat) (v : List String) (i : Bool),
      (display_ownership_tree reg id d v i).all depthWithinBound = true) ∧
    countMaxDepth (display_ownership_tree chainReg "H0" 0 [] true) = 1 ∧
    (display_ownership_tree chainReg "H0" 0 [] true).contains
      (Ev.maxDepth (MAX_DEPTH + 1)) = true ∧
    (display_ownership_tree chainReg "H0" 0 [] true).contains
      (Ev.fetchProfile "H5") = false :=
  ⟨traverse_maxdepth,
   fun reg id d v i => traverseF_bound _ reg id d v i,
   by decide, by decide, by decide⟩

/-- Witness for C2: the general depth-guard statement applied at depth 5. -/
theorem claim2_max_depth_guard_witness :
    MAX_DEPTH < 5 ∧
    display_ownership_tree regAB "A" 5 [] true = [Ev.maxDepth 5] :=
  ⟨by decide, claim2_max_depth_guard.1 regAB "A" 5 [] true (by decide)⟩

/-- Claim C3: sibling branches are processed independently — the controller
loop over a concatenation is the concatenation of the loops, with every
recursive descent receiving the same (copied, never mutated) visited set —
and on the synthetic diamond where A's controllers B and C both list D, the
traversal renders D once under B's branch and once under C's branch (both at
depth 2), with no cycle or max-depth event. -/
theorem claim3_sibling_independence :
    (∀ (recur : String → List Ev) (d : Nat) (l1 l2 : List PSC),
      goPscs recur d (l1 ++ l2) = goPscs recur d l1 ++ goPscs recur d l2) ∧
    countHeadersOf "D" (display_ownership_tree regSib "A" 0 [] true) = 2 ∧
    ((display_ownership_tree regSib "A" 0 [] true).filter
      (fun e => e == Ev.nodeHeader 2 "D" "Delta Ltd")).length = 2 ∧
    countCycles (display_ownership_tree regSib "A" 0 [] true) = 0 ∧
    countMaxDepth (display_ownership_tree regSib "A" 0 [] true) = 0 := by
  refine ⟨?_, by decide, by decide, by decide, by decide⟩
  intro recur d l1 l2
  induction l1 with
  | nil => rfl
  | cons psc rest ih => simp [goPscs, ih]

/-- Claim C4: the recursability decision for a corporate controller's
identification record follows the specified ordered policy (no registration
number — not recursable; UK keyword match in country- or place-registered —
recursable; neither field present — recursable; otherwise not), it is what
the traversal's recursion decision evaluates for a corporate-entity PSC, and
the four reference examples hold. -/
theorem claim4_jurisdiction_classifier :
    (∀ ident : Identification, isRecursable ident = recursablePolicySpec ident) ∧
    (∀ (nm : String) (ident : Identification),
      pscRecurseTarget
        { name := some nm,
          kind := some "corporate-entity-person-with-significant-control",
          nationality := none, country_of_residence := none, statement := none,
          natures_of_control := [], identification := some ident } =
        (if isRecursable ident then
          some (normalizeId (ident.registration_number.getD ""))
         else none)) ∧
    isRecursable ⟨some "12345678", none, none, some "United Kingdom", none⟩ = true ∧
    isRecursable ⟨some "12345678", none, none, some "Delaware, USA", none⟩ = false ∧
    isRecursable ⟨some "12345678", none, none, none, none⟩ = true ∧
    isRecursable ⟨none, none, none, none, none⟩ = false := by
  refine ⟨jurisdiction_equiv, ?_, by decide, by decide, by decide, by decide⟩
  intro nm ident
  have hk : (titleKind "corporate-entity-person-with-significant-control" ==
      "Corporate Entity Person With Significant Control") = true := by decide
  simp only [pscRecurseTarget, isRecursable, Option.getD_some, hk, Bool.true_or,
    Bool.and_true]
  by_cases hr : truthy ident.registration_number = true
  · by_cases hu : isUkLike ident.country_registered ident.place_registered = true
    · simp [hr, hu]
    · rw [Bool.not_eq_true] at hu
      simp [hr, hu]
  · rw [Bool.not_eq_true] at hr
    simp [hr]

/-- Claim C5: a controller kind string is classified as an individual exactly
when its title-cased label contains "Individual", or contains "Person With
Significant Control" while containing neither "Corporate" nor "Legal"; the
three reference kinds classify as stated. -/
theorem claim5_individual_kind :
    (∀ kind : String, isIndividualKind kind = true ↔
      (strContains (titleKind kind) "Individual" = true ∨
        (strContains (titleKind kind) "Person With Significant Control" = true ∧
          strContains (titleKind kind) "Corporate" = false ∧
          strContains (titleKind kind) "Legal" = false))) ∧
    isIndividualKind "individual-person-with-significant-control" = true ∧
    isIndividualKind "corporate-entity-person-with-significant-control" = false ∧
    isIndividualKind "legal-person-person-with-significant-control" = false := by
  refine ⟨?_, by decide, by decide, by decide⟩
  intro kind
  simp [isIndividualKind, isIndividualKindLabel, Bool.or_eq_true, Bool.and_eq_true,
    Bool.not_eq_true']
  tauto

/-- Counterexample to claim C6: a 404 on the capital endpoint is returned by
the client exactly like a 404 on the profile endpoint — the data component
is `none` in both cases and a 404 warning is displayed — so no
successful-empty representation distinguishes the capital endpoint. -/
theorem claim6_counterexample :
    make_api_request (HttpResponse.httpError 404 "" :
        HttpResponse (Option (List FilingItem))) "12345678/capital" =
      (none, [ApiMsg.warning404 "12345678/capital"]) ∧
    (make_api_request (HttpResponse.httpError 404 "" :
        HttpResponse (Option (List FilingItem))) "12345678/capital").1 = none ∧
    (make_api_request (HttpResponse.httpError 404 "" :
        HttpResponse CompanyProfile) "12345678").1 = none :=
  ⟨rfl, rfl, rfl⟩

/-- Amended claim C6: every 404, on any endpoint, is mapped uniformly to an
absent result plus a 404 warning (no successful-empty variant exists, and
this revision performs no capital-endpoint request at all); a 404 on the
profile endpoint yields an absent profile, which halts that node after the
fetch, the warning, and the profile-unavailable terminal line. -/
theorem claim6_amended_uniform_404 :
    (∀ (α : Type) (t ref : String),
      make_api_request (HttpResponse.httpError 404 t : HttpResponse α) ref =
        (none, [ApiMsg.warning404 ref])) ∧
    (∀ (reg : Registry) (id : String) (d : Nat) (v : List String) (i : Bool),
      d ≤ MAX_DEPTH → (v.contains (normalizeId id) && !i) = false →
      reg.profile (normalizeId id) = .httpError 404 "" →
      display_ownership_tree reg id d v i =
        [Ev.fetchProfile (normalizeId id),
         Ev.apiMsg (ApiMsg.warning404 (normalizeId id)),
         Ev.profileFail d (normalizeId id)]) :=
  ⟨fun _ _ _ => rfl, traverse_profile_404⟩

/-- Witness for the amended C6: the profile-404 halt applied to a concrete
registry and identifier. -/
theorem claim6_amended_uniform_404_witness :
    0 ≤ MAX_DEPTH ∧
    ((([] : List String).contains (normalizeId "Z") && !false) = false) ∧
    regAB.profile (normalizeId "Z") = .httpError 404 "" ∧
    display_ownership_tree regAB "Z" 0 [] false =
      [Ev.fetchProfile (normalizeId "Z"),
       Ev.apiMsg (ApiMsg.warning404 (normalizeId "Z")),
       Ev.profileFail 0 (normalizeId "Z")] :=
  ⟨by decide, by decide, by decide,
    claim6_amended_uniform_404.2 regAB "Z" 0 [] false (by decide) (by decide)
      (by decide)⟩

/-- Counterexample to claim C7: in the synthetic registry where B's profile
request is answered 401, the trace of the run from A contains the 401 error
message and, after it, still fetches the sibling C — the run is not
aborted. -/
theorem claim7_counterexample :
    (display_ownership_tree reg401 "A" 0 [] true).contains
      (Ev.apiMsg (ApiMsg.error401 "B")) = true ∧
    ((display_ownership_tree reg401 "A" 0 [] true).dropWhile
      (fun e => !(e == Ev.apiMsg (ApiMsg.error401 "B")))).contains
      (Ev.fetchProfile "C") = true := by
  exact ⟨by decide, by decide⟩

/-- Amended claim C7: a 401 yields an error message and an absent result for
that one request; the affected node's branch halts as a profile-unavailable
leaf like any other per-node failure, and the traversal continues with the
remaining siblings — the run is not aborted. -/
theorem claim7_amended_401_contained :
    (∀ (α : Type) (t ref : String),
      make_api_request (HttpResponse.httpError 401 t : HttpResponse α) ref =
        (none, [ApiMsg.error401 ref])) ∧
    (display_ownership_tree reg401 "A" 0 [] true).contains
      (Ev.profileFail 1 "B") = true ∧
    (display_ownership_tree reg401 "A" 0 [] true).contains
      (Ev.nodeHeader 1 "C" "Gamma Ltd") = true :=
  ⟨fun _ _ _ => rfl, by decide, by decide⟩

/-- Counterexample to claim C8: the input "AB123" (2 letters followed by only
3 digits) is accepted by the code although the claimed condition rejects it,
and "AB123456X" begins with 2 letters and 6 digits (so the claimed condition
accepts it) yet the code rejects it. -/
theorem claim8_counterexample :
    traversal_invoked "AB123" = true ∧
    claimedAcceptance "AB123" = false ∧
    traversal_invoked "AB123456X" = false ∧
    claimedAcceptance "AB123456X" = true :=
  ⟨by decide, by decide, by decide, by decide⟩

/-- Amended claim C8: an identifier is accepted (and the traversal invoked)
exactly when the raw input is non-empty and, after trimming and uppercasing,
it is exactly 8 characters long, or it is at least 3 characters long with
its first 2 characters alphabetic and all remaining characters digits. -/
theorem claim8_amended_validation (s : String) :
    traversal_invoked s =
      (!s.data.isEmpty &&
        ((normalizeId s).data.length == 8 ||
          (decide (3 ≤ (normalizeId s).data.length) &&
            ((normalizeId s).data.take 2).all Char.isAlpha &&
            ((normalizeId s).data.drop 2).all Char.isDigit))) := by
  simp only [traversal_invoked]
  rw [valid_format_eq]

/-- Counterexample to claim C9: a filing history of sixteen relevant filings
produces sixteen formatted entries — the sequence is not capped at 15. -/
theorem claim9_counterexample :
    (get_formatted_relevant_filing_history regFilings "X").1.length = 16 ∧
    ¬ ((get_formatted_relevant_filing_history regFilings "X").1.length ≤ 15) :=
  ⟨by decide, by decide⟩

/-- Amended claim C9: whenever any filing is relevant, the produced sequence
is exactly the relevant filings in the registry-returned order (most recent
first only insofar as the registry returns them so), one formatted entry per
relevant filing, with no count cap. -/
theorem claim9_amended_uncapped (cn : String) (items : List FilingItem)
    (h : items.filter filingIsRelevant ≠ []) :
    relevantFilingsMd cn (some (some items)) =
      (items.filter filingIsRelevant).map (formatFiling cn) := by
  simp only [relevantFilingsMd]
  rw [if_neg]
  simp only [List.isEmpty_iff, ne_eq, List.map_eq_nil_iff]
  exact h

/-- Witness for the amended C9: the uncapped-order statement applied to the
sixteen-filing history. -/
theorem claim9_amended_uncapped_witness :
    sixteenFilings.filter filingIsRelevant ≠ [] ∧
    relevantFilingsMd "X" (some (some sixteenFilings)) =
      (sixteenFilings.filter filingIsRelevant).map (formatFiling "X") :=
  ⟨by decide, claim9_amended_uncapped "X" sixteenFilings (by decide)⟩

/-- Claim C10: for total issued shares at least 1 and shares held at least 0,
the calculator warns (and reports no percentage) when held exceeds total,
otherwise reports exactly (held / total) × 100, and the divisor is never
zero. -/
theorem claim10_calculator (s m c : String) (total held : Int)
    (h1 : 1 ≤ total) (h2 : 0 ≤ held) :
    (held > total →
      display_shareholding_calculator s m c total held = CalcResult.warnExceeds) ∧
    (held ≤ total → ∃ entity cls,
      display_shareholding_calculator s m c total held =
        CalcResult.success entity cls (((held : ℚ) / (total : ℚ)) * 100)) ∧
    (total : ℚ) ≠ 0 := by
  refine ⟨?_, ?_, ?_⟩
  · intro hgt
    simp only [display_shareholding_calculator]
    rw [if_pos ⟨by omega, h2⟩, if_pos hgt]
  · intro hle
    simp only [display_shareholding_calculator]
    rw [if_pos ⟨by omega, h2⟩, if_neg (by omega)]
    exact ⟨_, _, rfl⟩
  · exact_mod_cast (by omega : total ≠ 0)

/-- Witness for C10: the calculator statement applied at total 4, held 1. -/
theorem claim10_calculator_witness :
    ((1 : Int) > 4 →
      display_shareholding_calculator "Other (Manual Entry)" "Jane" "Ordinary" 4 1 =
        CalcResult.warnExceeds) ∧
    ((1 : Int) ≤ 4 → ∃ entity cls,
      display_shareholding_calculator "Other (Manual Entry)" "Jane" "Ordinary" 4 1 =
        CalcResult.success entity cls ((((1 : Int) : ℚ) / ((4 : Int) : ℚ)) * 100)) ∧
    (((4 : Int) : ℚ) ≠ 0) :=
  claim10_calculator "Other (Manual Entry)" "Jane" "Ordinary" 4 1 (by norm_num)
    (by norm_num)
